import Mathlib

/-!
Verification of the bounded-movement logic (`move_player_system`) of the
`blockbracker` repository (`src/main.rs`).

The per-entity body of `move_player_system` (lines 144-195) is embedded as a
pure function `advance`.  Bevy/glam specifics are resolved as follows:

* the entity's `Transform` is the pair (translation, rotation); the z
  coordinate of the translation is never touched by the system, and the
  rotation is always a pure z-axis rotation (it starts as the identity and is
  only ever composed with `Quat::from_rotation_z`), so the state is modelled
  as a 2D position `ℝ × ℝ` together with a planar angle `θ : ℝ`;
* `Mat3::from_quat` of a z-rotation by `θ` has `x_axis = (cos θ, sin θ, 0)`
  and `y_axis = (-sin θ, cos θ, 0)`;
* `Vec3::length` of a vector with zero z is the 2D Euclidean norm;
* Rust's `f32::clamp(min, max)` panics when `min > max`; a panic is modelled
  by `Option`, the happy path returning `some`;
* `f32` arithmetic is idealised as real arithmetic.

The local constants of `move_player_system` (lines 138-142) — window half
sizes, `player_half_size = 25`, `speed = 200`, `rotation_speed = π / 2` — are
parameters of `advance` except `player_half_size`, which is kept as the fixed
constant the code uses for its collider-sized square.
-/

open Real

noncomputable section

/-- The six input-action flags (`Action` enum, lines 60-68) as sampled by
`action_state.pressed` for one tick. -/
structure ActionState where
  up : Bool
  down : Bool
  left : Bool
  right : Bool
  rleft : Bool
  rright : Bool

/-- Raw direction vector accumulated from the four linear flags
(lines 145-158).  The z component of the Bevy `Vec3` stays 0 throughout, so
the vector is modelled in 2D. -/
def rawDirection (a : ActionState) : ℝ × ℝ :=
  let d : ℝ × ℝ := (0, 0)
  let d : ℝ × ℝ := if a.up then (d.1, d.2 + 1) else d
  let d : ℝ × ℝ := if a.down then (d.1, d.2 - 1) else d
  let d : ℝ × ℝ := if a.left then (d.1 - 1, d.2) else d
  let d : ℝ × ℝ := if a.right then (d.1 + 1, d.2) else d
  d

/-- Euclidean length of a 2D vector (glam `Vec3::length` with zero z). -/
def vlen (v : ℝ × ℝ) : ℝ := Real.sqrt (v.1 ^ 2 + v.2 ^ 2)

/-- `if direction.length() > 0.0 { direction = direction.normalize(); }`
(lines 161-163). -/
def normalizeDir (v : ℝ × ℝ) : ℝ × ℝ :=
  if vlen v > 0 then (v.1 / vlen v, v.2 / vlen v) else v

/-- The translation increment `direction * speed * time.delta_seconds()`
added to the position on line 166. -/
def displacement (a : ActionState) (speed dt : ℝ) : ℝ × ℝ :=
  ((normalizeDir (rawDirection a)).1 * speed * dt,
   (normalizeDir (rawDirection a)).2 * speed * dt)

/-- Rotation handling (lines 169-176): composing z-rotations adds their
angles, `RLEFT` contributing `+rotation_speed * dt` and `RRIGHT`
contributing `-rotation_speed * dt`, applied independently. -/
def stepOrientation (a : ActionState) (θ rotation_speed dt : ℝ) : ℝ :=
  let θ1 := if a.rleft then θ + rotation_speed * dt else θ
  let θ2 := if a.rright then θ1 - rotation_speed * dt else θ1
  θ2

/-- `let player_half_size = 25.0;` (line 140). -/
def player_half_size : ℝ := 25

/-- `rotation_matrix.x_axis.abs() * player_half_size` (line 180): the
component-wise absolute value of the first column of the rotation matrix,
scaled by the half size. -/
def rotated_x_extent (θ : ℝ) : ℝ × ℝ :=
  (|Real.cos θ| * player_half_size, |Real.sin θ| * player_half_size)

/-- `rotation_matrix.y_axis.abs() * player_half_size` (line 181). -/
def rotated_y_extent (θ : ℝ) : ℝ × ℝ :=
  (|(-Real.sin θ)| * player_half_size, |Real.cos θ| * player_half_size)

/-- Rust's `f32::clamp`: panics (modelled as `none`) when the lower bound
exceeds the upper bound, otherwise clamps. -/
def clampF (x lo hi : ℝ) : Option ℝ :=
  if lo ≤ hi then some (max lo (min x hi)) else none

/-- The per-entity body of `move_player_system` (lines 144-195): translate by
the normalized direction scaled by `speed * dt`, rotate by the held rotation
flags, then clamp each coordinate to the window using the length of the
rotated extents.  Returns `none` when `f32::clamp` would panic. -/
def advance (a : ActionState) (pos : ℝ × ℝ)
    (θ speed rotation_speed dt half_width half_height : ℝ) :
    Option ((ℝ × ℝ) × ℝ) :=
  let p : ℝ × ℝ := (pos.1 + (displacement a speed dt).1,
                    pos.2 + (displacement a speed dt).2)
  let θ1 := stepOrientation a θ rotation_speed dt
  let mx := vlen (rotated_x_extent θ1)
  let my := vlen (rotated_y_extent θ1)
  match clampF p.1 (-half_width + mx) (half_width - mx),
        clampF p.2 (-half_height + my) (half_height - my) with
  | some cx, some cy => some ((cx, cy), θ1)
  | _, _ => none

/-- Axis-aligned half-width of the rotated square, as the specification
describes it: the component-wise absolute rotation matrix applied to the
half-extent, summed per axis.  (Spec wording; used to compare against what
the code computes.) -/
def aabbHalfX (θ : ℝ) : ℝ :=
  |Real.cos θ| * player_half_size + |Real.sin θ| * player_half_size

/-- Axis-aligned half-height of the rotated square per the specification's
wording. -/
def aabbHalfY (θ : ℝ) : ℝ :=
  |Real.sin θ| * player_half_size + |Real.cos θ| * player_half_size

/-- The arena-containment predicate of the specification: the axis-aligned
bounding box of the rotated square, centred at `p`, lies inside
`[-half_width, half_width] × [-half_height, half_height]`. -/
def containedInArena (p : ℝ × ℝ) (θ half_width half_height : ℝ) : Prop :=
  -half_width ≤ p.1 - aabbHalfX θ ∧ p.1 + aabbHalfX θ ≤ half_width ∧
  -half_height ≤ p.2 - aabbHalfY θ ∧ p.2 + aabbHalfY θ ≤ half_height

/-! ### Helper lemmas -/

lemma vlen_pair (x y : ℝ) : vlen (x, y) = Real.sqrt (x ^ 2 + y ^ 2) := rfl

lemma vlen_nonneg (v : ℝ × ℝ) : 0 ≤ vlen v := Real.sqrt_nonneg _

lemma vlen_zero : vlen ((0 : ℝ), (0 : ℝ)) = 0 := by
  simp [vlen]

lemma vlen_pos_of_ne (v : ℝ × ℝ) (h : v ≠ (0, 0)) : 0 < vlen v := by
  obtain ⟨x, y⟩ := v
  have hxy : x ≠ 0 ∨ y ≠ 0 := by
    by_contra hc
    push_neg at hc
    exact h (by simp [hc.1, hc.2])
  have hpos : 0 < x ^ 2 + y ^ 2 := by
    rcases hxy with hx | hy
    · have := sq_nonneg y
      positivity
    · have := sq_nonneg x
      positivity
  exact Real.sqrt_pos.mpr hpos

/-- The length of either rotated extent vector is exactly
`player_half_size`, independent of the angle. -/
lemma vlen_rotated_x_extent (θ : ℝ) :
    vlen (rotated_x_extent θ) = player_half_size := by
  have hsum : (|Real.cos θ| * player_half_size) ^ 2 +
      (|Real.sin θ| * player_half_size) ^ 2 = player_half_size ^ 2 := by
    rw [mul_pow, mul_pow, sq_abs, sq_abs]
    nlinarith [Real.sin_sq_add_cos_sq θ]
  rw [rotated_x_extent, vlen_pair, hsum]
  exact Real.sqrt_sq (by norm_num [player_half_size])

lemma vlen_rotated_y_extent (θ : ℝ) :
    vlen (rotated_y_extent θ) = player_half_size := by
  have hsum : (|(-Real.sin θ)| * player_half_size) ^ 2 +
      (|Real.cos θ| * player_half_size) ^ 2 = player_half_size ^ 2 := by
    rw [mul_pow, mul_pow, sq_abs, sq_abs]
    nlinarith [Real.sin_sq_add_cos_sq θ]
  rw [rotated_y_extent, vlen_pair, hsum]
  exact Real.sqrt_sq (by norm_num [player_half_size])

/-- Closed form of `advance` when neither clamp panics: both window half
sizes are at least `player_half_size`. -/
lemma advance_eq_of (a : ActionState) (pos : ℝ × ℝ)
    (θ speed rotation_speed dt half_width half_height : ℝ)
    (h1 : player_half_size ≤ half_width)
    (h2 : player_half_size ≤ half_height) :
    advance a pos θ speed rotation_speed dt half_width half_height =
      some ((max (-half_width + player_half_size)
               (min (pos.1 + (displacement a speed dt).1)
                    (half_width - player_half_size)),
             max (-half_height + player_half_size)
               (min (pos.2 + (displacement a speed dt).2)
                    (half_height - player_half_size))),
            stepOrientation a θ rotation_speed dt) := by
  rw [advance]
  simp only [vlen_rotated_x_extent, vlen_rotated_y_extent, clampF]
  rw [if_pos (by linarith), if_pos (by linarith)]

lemma max_min_self {lo x hi : ℝ} (h1 : lo ≤ x) (h2 : x ≤ hi) :
    max lo (min x hi) = x := by
  rw [min_eq_left h2, max_eq_right h1]

lemma displacement_of_raw_zero (a : ActionState) (speed dt : ℝ)
    (h : rawDirection a = (0, 0)) : displacement a speed dt = (0, 0) := by
  simp [displacement, normalizeDir, h, vlen_zero]

lemma displacement_dt_zero (a : ActionState) (speed : ℝ) :
    displacement a speed 0 = (0, 0) := by
  simp [displacement]

lemma stepOrientation_dt_zero (a : ActionState) (θ rotation_speed : ℝ) :
    stepOrientation a θ rotation_speed 0 = θ := by
  rw [stepOrientation]
  cases hl : a.rleft <;> cases hr : a.rright <;> simp [hl, hr]

lemma rawDirection_none : rawDirection ⟨false, false, false, false, false, false⟩ = (0, 0) := by
  simp [rawDirection]

lemma rawDirection_right : rawDirection ⟨false, false, false, true, false, false⟩ = (1, 0) := by
  simp [rawDirection]

lemma displacement_right (speed dt : ℝ) :
    displacement ⟨false, false, false, true, false, false⟩ speed dt = (speed * dt, 0) := by
  rw [displacement, rawDirection_right]
  have h1 : vlen ((1 : ℝ), (0 : ℝ)) = 1 := by
    rw [vlen_pair]
    norm_num
  rw [normalizeDir, h1]
  norm_num

lemma normalizeDir_fst_zero (v : ℝ × ℝ) (h : v.1 = 0) : (normalizeDir v).1 = 0 := by
  rw [normalizeDir]
  split <;> simp [h]

lemma normalizeDir_snd_zero (v : ℝ × ℝ) (h : v.2 = 0) : (normalizeDir v).2 = 0 := by
  rw [normalizeDir]
  split <;> simp [h]

lemma rawDirection_upright : rawDirection ⟨true, false, false, true, false, false⟩ = (1, 1) := by
  simp [rawDirection]

lemma rawDirection_rleft : rawDirection ⟨false, false, false, false, true, false⟩ = (0, 0) := by
  simp [rawDirection]

/-- Inversion on a successful `advance`: the window half sizes admit the
25-margin and the result is the clamped position with the stepped
orientation. -/
lemma advance_some_elim (a : ActionState) (pos : ℝ × ℝ)
    (θ speed rotation_speed dt half_width half_height : ℝ)
    (p : (ℝ × ℝ) × ℝ)
    (h : advance a pos θ speed rotation_speed dt half_width half_height = some p) :
    player_half_size ≤ half_width ∧ player_half_size ≤ half_height ∧
    p = ((max (-half_width + player_half_size)
            (min (pos.1 + (displacement a speed dt).1)
                 (half_width - player_half_size)),
          max (-half_height + player_half_size)
            (min (pos.2 + (displacement a speed dt).2)
                 (half_height - player_half_size))),
         stepOrientation a θ rotation_speed dt) := by
  rw [advance] at h
  simp only [vlen_rotated_x_extent, vlen_rotated_y_extent, clampF] at h
  by_cases h1 : -half_width + player_half_size ≤ half_width - player_half_size
  · rw [if_pos h1] at h
    by_cases h2 : -half_height + player_half_size ≤ half_height - player_half_size
    · rw [if_pos h2] at h
      injection h with h
      exact ⟨by linarith, by linarith, h.symm⟩
    · rw [if_neg h2] at h
      exact Option.noConfusion h
  · rw [if_neg h1] at h
    exact Option.noConfusion h

/-! ### Claim theorems -/

/-- C6: whenever the raw direction is nonzero it is normalized to unit
length, so the pre-clamp displacement added to the position has Euclidean
length exactly `speed * dt` — diagonal input moves at the same speed as
axial input. -/
theorem C6_displacement_length (a : ActionState) (speed dt : ℝ)
    (hs : 0 ≤ speed) (ht : 0 ≤ dt) (h : rawDirection a ≠ (0, 0)) :
    vlen (displacement a speed dt) = speed * dt := by
  have hL : 0 < vlen (rawDirection a) := vlen_pos_of_ne _ h
  have hLne : vlen (rawDirection a) ≠ 0 := ne_of_gt hL
  rw [displacement, normalizeDir, if_pos hL, vlen_pair]
  have key : ((rawDirection a).1 / vlen (rawDirection a) * speed * dt) ^ 2 +
      ((rawDirection a).2 / vlen (rawDirection a) * speed * dt) ^ 2 =
      (speed * dt / vlen (rawDirection a)) ^ 2 *
        ((rawDirection a).1 ^ 2 + (rawDirection a).2 ^ 2) := by
    ring
  rw [key, Real.sqrt_mul (sq_nonneg _),
    Real.sqrt_sq (by positivity : (0 : ℝ) ≤ speed * dt / vlen (rawDirection a)),
    show Real.sqrt ((rawDirection a).1 ^ 2 + (rawDirection a).2 ^ 2) =
      vlen (rawDirection a) from rfl]
  field_simp

/-- C6 witness: up+right with `speed = 200`, `dt = 1` gives a displacement of
length `200`. -/
theorem C6_witness :
    vlen (displacement ⟨true, false, false, true, false, false⟩ 200 1) = 200 * 1 :=
  C6_displacement_length ⟨true, false, false, true, false, false⟩ 200 1
    (by norm_num) (by norm_num)
    (by rw [rawDirection_upright]; simp)

/-- C7: holding up+down zeroes the raw y component and hence the pre-clamp
translation on y; holding left+right zeroes the raw x component and hence
the pre-clamp translation on x. -/
theorem C7_opposite_flags_cancel (a : ActionState) (speed dt : ℝ) :
    (a.up = true → a.down = true →
      (rawDirection a).2 = 0 ∧ (displacement a speed dt).2 = 0) ∧
    (a.left = true → a.right = true →
      (rawDirection a).1 = 0 ∧ (displacement a speed dt).1 = 0) := by
  obtain ⟨u, d, l, r, rl, rr⟩ := a
  constructor
  · intro hu hd
    subst hu hd
    have hraw : (rawDirection ⟨true, true, l, r, rl, rr⟩).2 = 0 := by
      cases l <;> cases r <;> simp [rawDirection]
    refine ⟨hraw, ?_⟩
    rw [displacement]
    rw [normalizeDir_snd_zero _ hraw, zero_mul, zero_mul]
  · intro hl hr
    subst hl hr
    have hraw : (rawDirection ⟨u, d, true, true, rl, rr⟩).1 = 0 := by
      cases u <;> cases d <;> simp [rawDirection]
    refine ⟨hraw, ?_⟩
    rw [displacement]
    rw [normalizeDir_fst_zero _ hraw, zero_mul, zero_mul]

/-- C7 witness: with all four linear flags held (and `speed = 200`,
`dt = 1`) the raw y component and the y translation are both zero. -/
theorem C7_witness :
    (rawDirection ⟨true, true, true, true, false, false⟩).2 = 0 ∧
    (displacement ⟨true, true, true, true, false, false⟩ 200 1).2 = 0 :=
  (C7_opposite_flags_cancel ⟨true, true, true, true, false, false⟩ 200 1).1 rfl rfl

/-- C8: on a successful step, rotate-left alone increases the orientation by
`rotation_speed * dt` and rotate-right alone decreases it by the same
amount. -/
theorem C8_rotation_sign (a : ActionState) (pos : ℝ × ℝ)
    (θ speed rotation_speed dt half_width half_height : ℝ)
    (p : (ℝ × ℝ) × ℝ)
    (h : advance a pos θ speed rotation_speed dt half_width half_height = some p) :
    (a.rleft = true → a.rright = false → p.2 = θ + rotation_speed * dt) ∧
    (a.rright = true → a.rleft = false → p.2 = θ - rotation_speed * dt) := by
  have hp := (advance_some_elim a pos θ speed rotation_speed dt
    half_width half_height p h).2.2
  constructor
  · intro hl hr
    rw [hp]
    simp [stepOrientation, hl, hr]
  · intro hr hl
    rw [hp]
    simp [stepOrientation, hl, hr]

lemma advance_rleft_concrete :
    advance ⟨false, false, false, false, true, false⟩ (0, 0) 0 200 (π / 2) 1 400 300 =
      some ((0, 0), π / 2) := by
  rw [advance_eq_of _ _ _ _ _ _ _ _ (by norm_num [player_half_size])
    (by norm_num [player_half_size]),
    displacement_of_raw_zero _ _ _ rawDirection_rleft]
  simp only [stepOrientation, player_half_size, if_true, Bool.false_eq_true, if_false]
  norm_num [min_def, max_def]

/-- C8 witness: starting from orientation `0` with `angularSpeed = π / 2`,
`dt = 1`, rotate-left alone yields orientation `π / 2`. -/
theorem C8_witness : (π / 2 : ℝ) = 0 + π / 2 * 1 :=
  (C8_rotation_sign ⟨false, false, false, false, true, false⟩ (0, 0) 0 200 (π / 2) 1
    400 300 ((0, 0), π / 2) advance_rleft_concrete).1 rfl rfl

lemma advance_none_origin :
    advance ⟨false, false, false, false, false, false⟩ (0, 0) 0 200 (π / 2) 1 400 300 =
      some ((0, 0), 0) := by
  rw [advance_eq_of _ _ _ _ _ _ _ _ (by norm_num [player_half_size])
    (by norm_num [player_half_size]),
    displacement_of_raw_zero _ _ _ rawDirection_none]
  simp only [stepOrientation, Bool.false_eq_true, if_false, player_half_size]
  norm_num [min_def, max_def]

/-- C10: the clamp margin the code derives from either rotated extent — the
Euclidean length of the component-wise absolute rotation column scaled by
`player_half_size` — equals `player_half_size` for every orientation, and
whenever both window half sizes are at least `player_half_size`, every
position returned by `advance` satisfies `|x| ≤ half_width - 25` and
`|y| ≤ half_height - 25`. -/
theorem C10_margin_constant_and_center_bounds :
    (∀ θ : ℝ, vlen (rotated_x_extent θ) = player_half_size ∧
      vlen (rotated_y_extent θ) = player_half_size) ∧
    (∀ (a : ActionState) (pos : ℝ × ℝ)
      (θ speed rotation_speed dt half_width half_height : ℝ)
      (p : (ℝ × ℝ) × ℝ),
      player_half_size ≤ half_width → player_half_size ≤ half_height →
      advance a pos θ speed rotation_speed dt half_width half_height = some p →
      |p.1.1| ≤ half_width - player_half_size ∧
      |p.1.2| ≤ half_height - player_half_size) := by
  constructor
  · exact fun θ => ⟨vlen_rotated_x_extent θ, vlen_rotated_y_extent θ⟩
  · intro a pos θ speed rotation_speed dt half_width half_height p h1 h2 h
    obtain ⟨-, -, hp⟩ := advance_some_elim a pos θ speed rotation_speed dt
      half_width half_height p h
    rw [hp]
    constructor
    · rw [abs_le]
      constructor
      · have := le_max_left (-half_width + player_half_size)
          (min (pos.1 + (displacement a speed dt).1) (half_width - player_half_size))
        linarith
      · exact max_le (by linarith)
          (min_le_right _ (half_width - player_half_size))
    · rw [abs_le]
      constructor
      · have := le_max_left (-half_height + player_half_size)
          (min (pos.2 + (displacement a speed dt).2) (half_height - player_half_size))
        linarith
      · exact max_le (by linarith)
          (min_le_right _ (half_height - player_half_size))

/-- C10 witness: at the origin with no flags in an 800×600 window the
returned position obeys both bounds. -/
theorem C10_witness :
    |(0 : ℝ)| ≤ 400 - player_half_size ∧ |(0 : ℝ)| ≤ 300 - player_half_size :=
  C10_margin_constant_and_center_bounds.2 ⟨false, false, false, false, false, false⟩
    (0, 0) 0 200 (π / 2) 1 400 300 ((0, 0), 0)
    (by norm_num [player_half_size]) (by norm_num [player_half_size])
    advance_none_origin

/-- C1 counterexample: at orientation `π / 4` the clamp margin is still 25,
so from `(395, 0)` with no flags the step returns `(375, 0)` — but the
axis-aligned bounding box of the square rotated by `π / 4` has half-width
`25 √2 ≈ 35.36`, which sticks out past `half_width = 400`. -/
theorem C1_counterexample :
    advance ⟨false, false, false, false, false, false⟩ (395, 0) (π / 4) 200 (π / 2) 1
      400 300 = some ((375, 0), π / 4) ∧
    ¬ containedInArena (375, 0) (π / 4) 400 300 := by
  constructor
  · rw [advance_eq_of _ _ _ _ _ _ _ _ (by norm_num [player_half_size])
      (by norm_num [player_half_size]),
      displacement_of_raw_zero _ _ _ rawDirection_none]
    simp only [stepOrientation, Bool.false_eq_true, if_false, player_half_size]
    norm_num [min_def, max_def]
  · have hx : aabbHalfX (π / 4) = 25 * Real.sqrt 2 := by
      rw [aabbHalfX, Real.cos_pi_div_four, Real.sin_pi_div_four, player_half_size,
        abs_of_nonneg (show (0 : ℝ) ≤ Real.sqrt 2 / 2 by positivity)]
      ring
    intro hc
    rw [containedInArena] at hc
    obtain ⟨-, h2, -, -⟩ := hc
    rw [hx] at h2
    norm_num at h2
    nlinarith [Real.sq_sqrt (show (0 : ℝ) ≤ 2 by norm_num), Real.sqrt_nonneg 2,
      sq_nonneg (Real.sqrt 2 - 1)]

/-- C1 (amended): on every successful `advance` step the returned centre
keeps a margin of `player_half_size = 25` to each wall, i.e. the unrotated
50×50 footprint of the entity lies within the arena; the AABB of the
*rotated* square may exceed it (see the counterexample). -/
theorem C1_amended_unrotated_containment (a : ActionState) (pos : ℝ × ℝ)
    (θ speed rotation_speed dt half_width half_height : ℝ) (p : (ℝ × ℝ) × ℝ)
    (h : advance a pos θ speed rotation_speed dt half_width half_height = some p) :
    -half_width ≤ p.1.1 - player_half_size ∧
    p.1.1 + player_half_size ≤ half_width ∧
    -half_height ≤ p.1.2 - player_half_size ∧
    p.1.2 + player_half_size ≤ half_height := by
  obtain ⟨h1, h2, hp⟩ := advance_some_elim a pos θ speed rotation_speed dt
    half_width half_height p h
  rw [hp]
  refine ⟨?_, ?_, ?_, ?_⟩
  · have := le_max_left (-half_width + player_half_size)
      (min (pos.1 + (displacement a speed dt).1) (half_width - player_half_size))
    linarith
  · have : max (-half_width + player_half_size)
        (min (pos.1 + (displacement a speed dt).1) (half_width - player_half_size)) ≤
        half_width - player_half_size :=
      max_le (by linarith) (min_le_right _ _)
    linarith
  · have := le_max_left (-half_height + player_half_size)
      (min (pos.2 + (displacement a speed dt).2) (half_height - player_half_size))
    linarith
  · have : max (-half_height + player_half_size)
        (min (pos.2 + (displacement a speed dt).2) (half_height - player_half_size)) ≤
        half_height - player_half_size :=
      max_le (by linarith) (min_le_right _ _)
    linarith

/-- C1 witness: the amended containment at the origin step. -/
theorem C1_witness :
    -(400 : ℝ) ≤ (0 : ℝ) - player_half_size ∧
    (0 : ℝ) + player_half_size ≤ (400 : ℝ) ∧
    -(300 : ℝ) ≤ (0 : ℝ) - player_half_size ∧
    (0 : ℝ) + player_half_size ≤ (300 : ℝ) :=
  C1_amended_unrotated_containment ⟨false, false, false, false, false, false⟩
    (0, 0) 0 200 (π / 2) 1 400 300 ((0, 0), 0) advance_none_origin

/-- C2 counterexample: the orientation `π / 4` is reached by one rotation
step, and there the margin the code uses (25) differs from the spec's
component-sum formula `|cos θ|·25 + |sin θ|·25 = 25 √2`. -/
theorem C2_counterexample :
    stepOrientation ⟨false, false, false, false, true, false⟩ 0 (π / 2) (1 / 2) = π / 4 ∧
    vlen (rotated_x_extent (π / 4)) ≠
      |Real.cos (π / 4)| * player_half_size + |Real.sin (π / 4)| * player_half_size := by
  constructor
  · simp only [stepOrientation, if_true, Bool.false_eq_true, if_false]
    ring
  · rw [vlen_rotated_x_extent, Real.cos_pi_div_four, Real.sin_pi_div_four,
      abs_of_nonneg (show (0 : ℝ) ≤ Real.sqrt 2 / 2 by positivity), player_half_size]
    intro hc
    nlinarith [Real.sq_sqrt (show (0 : ℝ) ≤ 2 by norm_num), Real.sqrt_nonneg 2,
      sq_nonneg (Real.sqrt 2 - 1)]

/-- C2 (amended): the clamp margin the code computes on each axis is the
Euclidean length of the component-wise absolute rotated axis column scaled
by the half size, and that length equals `player_half_size = 25` for every
orientation — not the component sum `|cos θ|·25 + |sin θ|·25`. -/
theorem C2_margin_is_extent_length (θ : ℝ) :
    vlen (rotated_x_extent θ) = player_half_size ∧
    vlen (rotated_y_extent θ) = player_half_size :=
  ⟨vlen_rotated_x_extent θ, vlen_rotated_y_extent θ⟩

/-- C3: with a window half-width of 10 (window smaller than the player), the
clamp interval is inverted (`-10 + 25 > 10 - 25`), so `f32::clamp` panics;
the step fails instead of returning the arena centre. -/
theorem C3_degenerate_bounds_panic :
    advance ⟨false, false, false, false, false, false⟩ (0, 0) 0 200 (π / 2) 0 10 300 =
      none := by
  rw [advance]
  simp only [vlen_rotated_x_extent, vlen_rotated_y_extent, clampF]
  rw [if_neg (by norm_num [player_half_size])]

/-- C4 counterexample: no flags held, but a starting position `(500, 0)`
outside the 800×600 window is still clamped to `(375, 0)`, so the step does
not return its input unchanged. -/
theorem C4_counterexample :
    advance ⟨false, false, false, false, false, false⟩ (500, 0) 0 200 (π / 2) 1 400 300 ≠
      some ((500, 0), 0) := by
  rw [advance_eq_of _ _ _ _ _ _ _ _ (by norm_num [player_half_size])
    (by norm_num [player_half_size]),
    displacement_of_raw_zero _ _ _ rawDirection_none]
  simp only [stepOrientation, Bool.false_eq_true, if_false, player_half_size]
  norm_num [min_def, max_def, Prod.ext_iff]

/-- C4 (amended): with no flags held and a starting position already inside
the clamped region, the step returns position and orientation unchanged,
for every `dt`. -/
theorem C4_no_flags_noop (pos : ℝ × ℝ)
    (θ speed rotation_speed dt half_width half_height : ℝ)
    (hx1 : -half_width + player_half_size ≤ pos.1)
    (hx2 : pos.1 ≤ half_width - player_half_size)
    (hy1 : -half_height + player_half_size ≤ pos.2)
    (hy2 : pos.2 ≤ half_height - player_half_size) :
    advance ⟨false, false, false, false, false, false⟩ pos θ speed rotation_speed dt
      half_width half_height = some (pos, θ) := by
  rw [advance_eq_of _ _ _ _ _ _ _ _ (by linarith) (by linarith),
    displacement_of_raw_zero _ _ _ rawDirection_none]
  simp only [stepOrientation, Bool.false_eq_true, if_false]
  rw [show pos.1 + ((0 : ℝ), (0 : ℝ)).1 = pos.1 by norm_num,
    show pos.2 + ((0 : ℝ), (0 : ℝ)).2 = pos.2 by norm_num,
    max_min_self hx1 hx2, max_min_self hy1 hy2]

/-- C4 witness: the no-flag step at the origin in an 800×600 window. -/
theorem C4_witness :
    advance ⟨false, false, false, false, false, false⟩ (0, 0) 0 200 (π / 2) 1 400 300 =
      some ((0, 0), 0) :=
  C4_no_flags_noop (0, 0) 0 200 (π / 2) 1 400 300
    (by norm_num [player_half_size]) (by norm_num [player_half_size])
    (by norm_num [player_half_size]) (by norm_num [player_half_size])

/-- C5 counterexample: `dt = 0`, but a starting position `(500, 0)` outside
the 800×600 window is still clamped to `(375, 0)`, so the step does not
return its input unchanged. -/
theorem C5_counterexample :
    advance ⟨true, false, false, true, true, false⟩ (500, 0) 1 200 (π / 2) 0 400 300 ≠
      some ((500, 0), 1) := by
  rw [advance_eq_of _ _ _ _ _ _ _ _ (by norm_num [player_half_size])
    (by norm_num [player_half_size]), displacement_dt_zero]
  simp only [stepOrientation, if_true, Bool.false_eq_true, if_false, player_half_size]
  norm_num [min_def, max_def, Prod.ext_iff]

/-- C5 (amended): with `dt = 0` and a starting position already inside the
clamped region, the step returns position and orientation unchanged, for
every flag combination. -/
theorem C5_zero_dt_noop (a : ActionState) (pos : ℝ × ℝ)
    (θ speed rotation_speed half_width half_height : ℝ)
    (hx1 : -half_width + player_half_size ≤ pos.1)
    (hx2 : pos.1 ≤ half_width - player_half_size)
    (hy1 : -half_height + player_half_size ≤ pos.2)
    (hy2 : pos.2 ≤ half_height - player_half_size) :
    advance a pos θ speed rotation_speed 0 half_width half_height = some (pos, θ) := by
  rw [advance_eq_of _ _ _ _ _ _ _ _ (by linarith) (by linarith), displacement_dt_zero,
    stepOrientation_dt_zero]
  rw [show pos.1 + ((0 : ℝ), (0 : ℝ)).1 = pos.1 by norm_num,
    show pos.2 + ((0 : ℝ), (0 : ℝ)).2 = pos.2 by norm_num,
    max_min_self hx1 hx2, max_min_self hy1 hy2]

/-- C5 witness: all six flags held with `dt = 0` at `(5, 5)` leave the state
unchanged. -/
theorem C5_witness :
    advance ⟨true, true, true, true, true, true⟩ (5, 5) 2 200 (π / 2) 0 400 300 =
      some ((5, 5), 2) :=
  C5_zero_dt_noop ⟨true, true, true, true, true, true⟩ (5, 5) 2 200 (π / 2) 400 300
    (by norm_num [player_half_size]) (by norm_num [player_half_size])
    (by norm_num [player_half_size]) (by norm_num [player_half_size])

/-- C9: from position `(395, 0)`, orientation `0`, with only the right flag
held, `speed = 200`, `dt = 1`, window half sizes `(400, 300)`, the step adds
the displacement to the position (giving `595`) and then clamps to
`400 - 25 = 375`, returning `((375, 0), 0)`. -/
theorem C9_right_flag_clamped_to_375 :
    advance ⟨false, false, false, true, false, false⟩ (395, 0) 0 200 (π / 2) 1 400 300 =
      some ((375, 0), 0) := by
  rw [advance_eq_of _ _ _ _ _ _ _ _ (by norm_num [player_half_size])
    (by norm_num [player_half_size]), displacement_right]
  simp only [stepOrientation, player_half_size, Bool.false_eq_true, if_false]
  norm_num [min_def, max_def]
